import Mathlib

/-!
A shallow embedding of the darwin keychain backend (`keychain.go`) of the
keyring library.

The external collaborators — the macOS keychain provider (`gokeychain`),
the biometric authenticator (`touchid`) and the masked terminal reader —
are modelled by an `Env` record of response functions.  Every backend
operation becomes a pure function of the backend state and the environment
which, besides its Go results, returns the trace of external calls it
performed (`List Event`), so that statements such as "the authenticator is
challenged at most once" or "create and unlock are never both attempted"
can be expressed over the trace.

Conventions of the embedding:
- a Go function returning `(T, error)` is modelled as `Except GoErr T`
  (the zero `T` value Go returns together with a non-nil error is dropped);
- a Go function returning only `error` is modelled as `Option GoErr`
  (`none` = nil);
- Go byte sequences (`[]byte`) are modelled as `String`, so the conversion
  `string(b)` is the identity;
- mutation of the receiver `*keychain` is modelled by returning the updated
  state.
-/

/-- Go `error` values appearing in the source: the provider sentinels
`gokeychain.ErrorItemNotFound`, `gokeychain.ErrorDuplicateItem` and
`gokeychain.ErrorNoSuchKeychain`; the keyring package sentinel
`ErrKeyNotFound`; `errors.New` messages; `fmt.Errorf` wrapping; and
otherwise opaque errors. -/
inductive GoErr where
  | itemNotFound
  | duplicateItem
  | noSuchKeychain
  | keyNotFound
  | msg (s : String)
  | wrap (s : String) (e : GoErr)
  | other (code : Nat)
  deriving DecidableEq, Repr

/-- A `gokeychain.Keychain` value: either the zero value `Keychain\x7b\x7d` or the
result of `gokeychain.NewWithPath(p)`. -/
structure GKeychain where
  pathRef : Option String
  deriving DecidableEq, Repr

def GKeychain.zero : GKeychain := { pathRef := none }

def GKeychain.newWithPath (p : String) : GKeychain := { pathRef := some p }

inductive SecClass where
  | genericPassword
  deriving DecidableEq, Repr

inductive MatchLimit where
  | one
  | all
  deriving DecidableEq, Repr

inductive Synchronizable where
  | yes
  | no
  deriving DecidableEq, Repr

inductive Accessible where
  | whenUnlocked
  deriving DecidableEq, Repr

/-- A `gokeychain.Access` record.  The Go field `TrustedApplications` is a
`[]string` that may be nil (`none`) or an explicit — possibly empty —
list (`some`). -/
structure Access where
  Label : String
  TrustedApplications : Option (List String)
  deriving DecidableEq, Repr

/-- A `gokeychain.Item`: the attribute dictionary built by the `Set...`
methods.  A field is `none` when the corresponding attribute was never set
(or, for `access`, when it was explicitly cleared with `SetAccess(nil)`). -/
structure KCItem where
  secClass : Option SecClass
  service : Option String
  account : Option String
  label : Option String
  description : Option String
  data : Option String
  matchLimit : Option MatchLimit
  returnAttributes : Option Bool
  returnData : Option Bool
  matchSearchList : Option GKeychain
  useKeychain : Option GKeychain
  synchronizable : Option Synchronizable
  accessible : Option Accessible
  access : Option Access
  deriving DecidableEq, Repr

/-- `gokeychain.NewItem()`: the empty attribute dictionary. -/
def KCItem.new : KCItem :=
  { secClass := none, service := none, account := none, label := none,
    description := none, data := none, matchLimit := none,
    returnAttributes := none, returnData := none, matchSearchList := none,
    useKeychain := none, synchronizable := none, accessible := none,
    access := none }

def KCItem.SetSecClass (i : KCItem) (c : SecClass) : KCItem := { i with secClass := some c }

def KCItem.SetService (i : KCItem) (s : String) : KCItem := { i with service := some s }

def KCItem.SetAccount (i : KCItem) (a : String) : KCItem := { i with account := some a }

def KCItem.SetLabel (i : KCItem) (l : String) : KCItem := { i with label := some l }

def KCItem.SetDescription (i : KCItem) (d : String) : KCItem := { i with description := some d }

def KCItem.SetData (i : KCItem) (d : String) : KCItem := { i with data := some d }

def KCItem.SetMatchLimit (i : KCItem) (m : MatchLimit) : KCItem := { i with matchLimit := some m }

def KCItem.SetReturnAttributes (i : KCItem) (b : Bool) : KCItem := { i with returnAttributes := some b }

def KCItem.SetReturnData (i : KCItem) (b : Bool) : KCItem := { i with returnData := some b }

def KCItem.SetMatchSearchList (i : KCItem) (kc : GKeychain) : KCItem := { i with matchSearchList := some kc }

def KCItem.UseKeychain (i : KCItem) (kc : GKeychain) : KCItem := { i with useKeychain := some kc }

def KCItem.SetSynchronizable (i : KCItem) (s : Synchronizable) : KCItem := { i with synchronizable := some s }

def KCItem.SetAccessible (i : KCItem) (a : Accessible) : KCItem := { i with accessible := some a }

/-- `gokeychain.Item.SetAccess` takes a possibly-nil pointer: `none`
models `SetAccess(nil)`, which removes the access record from the
payload. -/
def KCItem.SetAccess (i : KCItem) (a : Option Access) : KCItem := { i with access := a }

/-- One entry of a `gokeychain.QueryItem` result. -/
structure QueryResult where
  Account : String
  Data : String
  Label : String
  Description : String
  deriving DecidableEq, Repr, Inhabited

/-- One external call performed by the backend, recorded in the trace. -/
inductive Event where
  | statusCheck (kc : GKeychain)
  | challenge (prompt : String)
  | query (q : KCItem)
  | add (i : KCItem)
  | update (q i : KCItem)
  | delete (i : KCItem)
  | lock (path : String)
  | unlock (path pass : String)
  | readPassword
  | createPrompt (path : String)
  | create (path pass : String)
  deriving DecidableEq, Repr

/-- Responses of the external collaborators.  Each field models one
external function the source calls; within one backend call each call
site is reached at most once, so representing the collaborators as fixed
response functions loses no generality for the properties stated below. -/
structure Env where
  touchid : String → Bool × Option GoErr
  queryItem : KCItem → List QueryResult × Option GoErr
  addItem : KCItem → Option GoErr
  updateItem : KCItem → KCItem → Option GoErr
  deleteItem : KCItem → Option GoErr
  status : GKeychain → Option GoErr
  newKeychainWithPrompt : String → Except GoErr GKeychain
  newKeychain : String → String → Except GoErr GKeychain
  unlockAtPath : String → String → Option GoErr
  readPassword : Except GoErr String

/-- Modelled from the spec: the item value object (spec section 3), whose
struct is defined outside this file's source.  The override flags
`KeychainNotSynchronizable` and `KeychainNotTrustApplication` are the ones
the spec calls `overrideNotSynchronizable` and `overrideNotTrusted`; the
remaining fields are the ones `Set` and `Get` read and write. -/
structure Item where
  Key : String
  Data : String
  Label : String
  Description : String
  KeychainNotSynchronizable : Bool
  KeychainNotTrustApplication : Bool
  deriving DecidableEq, Repr

/-- Modelled from the spec: the backend configuration (spec section 3,
`BackendConfig`), whose struct is defined outside this file's source.
Field names follow the usage sites of the source (`cfg.ServiceName`,
`cfg.KeychainName`, `cfg.KeychainPasswordFunc`,
`cfg.KeychainAccessibleWhenUnlocked`, `cfg.KeychainTrustApplication`);
`KeychainSynchronizable` is the flag the spec calls
`config.synchronizable`. -/
structure Config where
  ServiceName : String
  KeychainName : String
  KeychainPasswordFunc : Option (String → Except GoErr String)
  KeychainAccessibleWhenUnlocked : Bool
  KeychainTrustApplication : Bool
  KeychainSynchronizable : Bool

/-- The `keychain` struct (source lines 22–33). -/
structure keychain where
  path : String
  service : String
  passphrase : String
  authenticated : Bool
  passwordFunc : Option (String → Except GoErr String)
  isSynchronizable : Bool
  isAccessibleWhenUnlocked : Bool
  isTrusted : Bool

def biometricsAccount : String := "x"

def biometricsService : String := "x"

/-- `fmt.Sprintf(biometricsLabel, path)` with `biometricsLabel =
"Passphrase for %s"`. -/
def biometricsLabel (path : String) : String := "Passphrase for " ++ path

/-- The backend constructor registered by `init` (source lines 35–54).
Fields not mentioned there keep their Go zero values; in particular
`isSynchronizable` is never assigned from the configuration. -/
def keychainOpener (cfg : Config) : keychain :=
  let kc : keychain :=
    { path := "", service := cfg.ServiceName, passphrase := "",
      authenticated := false, passwordFunc := cfg.KeychainPasswordFunc,
      isSynchronizable := false,
      isAccessibleWhenUnlocked := cfg.KeychainAccessibleWhenUnlocked,
      isTrusted := false }
  let kc := if cfg.KeychainName ≠ "" then { kc with path := cfg.KeychainName ++ ".keychain" } else kc
  if cfg.KeychainTrustApplication then { kc with isTrusted := true } else kc

/-- The query built by `Get` (source lines 57–68). -/
def keychain.getQuery (k : keychain) (key : String) : KCItem :=
  let q := (((((KCItem.new.SetSecClass SecClass.genericPassword).SetService
      k.service).SetAccount key).SetMatchLimit MatchLimit.one).SetReturnAttributes
      true).SetReturnData true
  if k.path ≠ "" then q.SetMatchSearchList (GKeychain.newWithPath k.path) else q

/-- `Get` (source lines 56–91). -/
def keychain.Get (k : keychain) (env : Env) (key : String) : Except GoErr Item :=
  let r := env.queryItem (k.getQuery key)
  if r.2 = some GoErr.itemNotFound ∨ r.1.length = 0 then
    Except.error GoErr.keyNotFound
  else
    match r.2 with
    | some e => Except.error e
    | none =>
      Except.ok
        { Key := key, Data := (r.1.headD default).Data,
          Label := (r.1.headD default).Label,
          Description := (r.1.headD default).Description,
          KeychainNotSynchronizable := false,
          KeychainNotTrustApplication := false }

/-- `setupBiometrics` (source lines 267–301): masked terminal read, lock,
unlock to validate, cache the passphrase and store it under the reserved
biometrics service/account. -/
def keychain.setupBiometrics (k : keychain) (env : Env) :
    keychain × Option GoErr × List Event :=
  match env.readPassword with
  | Except.error e => (k, some e, [Event.readPassword])
  | Except.ok passphrase =>
    let evs := [Event.readPassword, Event.lock k.path, Event.unlock k.path passphrase]
    match env.unlockAtPath k.path passphrase with
    | some e => (k, some e, evs)
    | none =>
      let k1 : keychain := { k with passphrase := passphrase }
      let item := ((((((KCItem.new.SetSecClass SecClass.genericPassword).SetService
          biometricsService).SetAccount biometricsAccount).SetLabel
          (biometricsLabel k1.path)).SetData passphrase).SetSynchronizable
          Synchronizable.no).SetAccessible Accessible.whenUnlocked
      (k1, env.addItem item, evs ++ [Event.add item])

/-- The stored-passphrase query built by `openWithBiometrics` (source
lines 314–320). -/
def keychain.bioQuery (k : keychain) : KCItem :=
  (((((KCItem.new.SetSecClass SecClass.genericPassword).SetService
      biometricsService).SetAccount biometricsAccount).SetLabel
      (biometricsLabel k.path)).SetMatchLimit MatchLimit.one).SetReturnData true

/-- `openWithBiometrics` (source lines 303–342): the biometric gate.  The
body of `if !k.authenticated` either fails with an error or falls through
to the common `return gokeychain.NewWithPath(k.path), nil`. -/
def keychain.openWithBiometrics (k : keychain) (env : Env) :
    keychain × Except GoErr GKeychain × List Event :=
  let step : keychain × Option GoErr × List Event :=
    if !k.authenticated then
      let t := env.touchid ("unlock " ++ k.path)
      if !t.1 || t.2.isSome then
        (k, some (GoErr.msg "Authentication with biometrics failed"),
          [Event.challenge ("unlock " ++ k.path)])
      else
        let k1 : keychain := { k with authenticated := true }
        let r := env.queryItem k1.bioQuery
        let evs := [Event.challenge ("unlock " ++ k.path), Event.query k1.bioQuery]
        match r.2 with
        | some e => (k1, some e, evs)
        | none =>
          if r.1.length ≠ 1 then
            let s := k1.setupBiometrics env
            (s.1, s.2.1, evs ++ s.2.2)
          else
            let stored := (r.1.headD default).Data
            match env.unlockAtPath k1.path stored with
            | some e => (k1, some e, evs ++ [Event.unlock k1.path stored])
            | none =>
              ({ k1 with passphrase := stored }, none,
                evs ++ [Event.unlock k1.path stored])
    else (k, none, [])
  (step.1,
    match step.2.1 with
    | some e => Except.error e
    | none => Except.ok (GKeychain.newWithPath step.1.path),
    step.2.2)

/-- `createOrOpen` (source lines 344–374): the store opener. -/
def keychain.createOrOpen (k : keychain) (env : Env) :
    keychain × Except GoErr GKeychain × List Event :=
  let kc := GKeychain.newWithPath k.path
  match env.status kc with
  | none =>
    let g := k.openWithBiometrics env
    (g.1, g.2.1, Event.statusCheck kc :: g.2.2)
  | some e =>
    if e ≠ GoErr.noSuchKeychain then
      (k, Except.error e, [Event.statusCheck kc])
    else
      match k.passwordFunc with
      | none =>
        (k, env.newKeychainWithPrompt k.path,
          [Event.statusCheck kc, Event.createPrompt k.path])
      | some f =>
        match f "Enter passphrase for keychain" with
        | Except.error e2 => (k, Except.error e2, [Event.statusCheck kc])
        | Except.ok passphrase =>
          (k, env.newKeychain k.path passphrase,
            [Event.statusCheck kc, Event.create k.path passphrase])

/-- The item payload built by `Set` (source lines 139–173), including the
access-control record chosen from the effective trust. -/
def keychain.setBuildItem (k : keychain) (item : Item) (kc : GKeychain) : KCItem :=
  let kcItem := (((((KCItem.new.SetSecClass SecClass.genericPassword).SetService
      k.service).SetAccount item.Key).SetLabel item.Label).SetDescription
      item.Description).SetData item.Data
  let kcItem := if k.path ≠ "" then kcItem.UseKeychain kc else kcItem
  let kcItem :=
    if k.isSynchronizable && !item.KeychainNotSynchronizable then
      kcItem.SetSynchronizable Synchronizable.yes
    else kcItem
  let kcItem :=
    if k.isAccessibleWhenUnlocked then kcItem.SetAccessible Accessible.whenUnlocked
    else kcItem
  let isTrusted := k.isTrusted && !item.KeychainNotTrustApplication
  if isTrusted then
    kcItem.SetAccess (some { Label := item.Label, TrustedApplications := none })
  else
    kcItem.SetAccess (some { Label := item.Label, TrustedApplications := some [] })

/-- The duplicate re-query built by `Set` (source lines 179–188). -/
def keychain.setDupQuery (k : keychain) (item : Item) (kc : GKeychain) : KCItem :=
  let q := ((((KCItem.new.SetSecClass SecClass.genericPassword).SetService
      k.service).SetAccount item.Key).SetMatchLimit
      MatchLimit.one).SetReturnAttributes true
  if k.path ≠ "" then q.SetMatchSearchList kc else q

/-- The create-then-update stage of `Set` (source lines 139–206): attempt
`AddItem`; on `ErrorDuplicateItem` re-query for the entry and update it
with `SetAccess(nil)`; any other `AddItem` outcome falls through to
`return nil`. -/
def keychain.setAfterOpen (k : keychain) (env : Env) (item : Item) (kc : GKeychain) :
    Option GoErr × List Event :=
  let kcItem := k.setBuildItem item kc
  if env.addItem kcItem = some GoErr.duplicateItem then
    let queryItem := k.setDupQuery item kc
    let r := env.queryItem queryItem
    match r.2 with
    | some e =>
      (some (GoErr.wrap "Failed to query keychain" e),
        [Event.add kcItem, Event.query queryItem])
    | none =>
      if r.1.length = 0 then
        (some (GoErr.msg "no results"), [Event.add kcItem, Event.query queryItem])
      else
        let kcItem2 := kcItem.SetAccess none
        match env.updateItem queryItem kcItem2 with
        | some e =>
          (some (GoErr.wrap "Failed to update item in keychain" e),
            [Event.add kcItem, Event.query queryItem, Event.update queryItem kcItem2])
        | none =>
          (none, [Event.add kcItem, Event.query queryItem, Event.update queryItem kcItem2])
  else (none, [Event.add kcItem])

/-- `Set` (source lines 127–207): create-or-open the container when a
path is configured, then run the create-then-update stage. -/
def keychain.Set (k : keychain) (env : Env) (item : Item) :
    keychain × Option GoErr × List Event :=
  if k.path ≠ "" then
    let g := k.createOrOpen env
    match g.2.1 with
    | Except.error e => (g.1, some e, g.2.2)
    | Except.ok kc =>
      let s := g.1.setAfterOpen env item kc
      (g.1, s.1, g.2.2 ++ s.2)
  else
    let s := k.setAfterOpen env item GKeychain.zero
    (k, s.1, s.2)

/-- `Remove` (source lines 209–230). -/
def keychain.Remove (k : keychain) (env : Env) (key : String) :
    Option GoErr × List Event :=
  let item := ((KCItem.new.SetSecClass SecClass.genericPassword).SetService
      k.service).SetAccount key
  if k.path ≠ "" then
    let kc := GKeychain.newWithPath k.path
    match env.status kc with
    | some e =>
      if e = GoErr.noSuchKeychain then (some GoErr.keyNotFound, [Event.statusCheck kc])
      else (some e, [Event.statusCheck kc])
    | none =>
      let item1 := item.SetMatchSearchList kc
      (env.deleteItem item1, [Event.statusCheck kc, Event.delete item1])
  else (env.deleteItem item, [Event.delete item])

/-- The base query built by `Keys` (source lines 233–237). -/
def keychain.keysQuery (k : keychain) : KCItem :=
  (((KCItem.new.SetSecClass SecClass.genericPassword).SetService
      k.service).SetMatchLimit MatchLimit.all).SetReturnAttributes true

/-- `Keys` (source lines 232–265). -/
def keychain.Keys (k : keychain) (env : Env) :
    Except GoErr (List String) × List Event :=
  if k.path ≠ "" then
    let kc := GKeychain.newWithPath k.path
    match env.status kc with
    | some e =>
      if e = GoErr.noSuchKeychain then (Except.ok [], [Event.statusCheck kc])
      else (Except.error e, [Event.statusCheck kc])
    | none =>
      let q := k.keysQuery.SetMatchSearchList kc
      let r := env.queryItem q
      match r.2 with
      | some e => (Except.error e, [Event.statusCheck kc, Event.query q])
      | none =>
        (Except.ok (r.1.map QueryResult.Account), [Event.statusCheck kc, Event.query q])
  else
    let r := env.queryItem k.keysQuery
    match r.2 with
    | some e => (Except.error e, [Event.query k.keysQuery])
    | none => (Except.ok (r.1.map QueryResult.Account), [Event.query k.keysQuery])

/-- Sequencing of gate invocations on one backend instance, used to state
the once-per-instance property: runs `openWithBiometrics` once per
environment in the list, threading the state, and collects each
invocation's result and trace. -/
def runGate (k : keychain) : List Env → keychain × List (Except GoErr GKeychain × List Event)
  | [] => (k, [])
  | env :: rest =>
    match k.openWithBiometrics env with
    | (k1, r, evs) =>
      match runGate k1 rest with
      | (k2, out) => (k2, (r, evs) :: out)

/-- Classifier used to state the opener claims: the provider calls that
create a container. -/
def Event.isCreateCall : Event → Bool
  | Event.createPrompt _ => true
  | Event.create _ _ => true
  | _ => false

/-- Classifier used to state the opener claims: the provider calls that
unlock a container. -/
def Event.isUnlockCall : Event → Bool
  | Event.unlock _ _ => true
  | _ => false

/-! Helper lemmas about the biometric gate. -/

lemma setup_auth (k : keychain) (env : Env) :
    ((k.setupBiometrics env).1).authenticated = k.authenticated := by
  unfold keychain.setupBiometrics
  repeat' split
  all_goals simp

lemma setup_path (k : keychain) (env : Env) :
    ((k.setupBiometrics env).1).path = k.path := by
  unfold keychain.setupBiometrics
  repeat' split
  all_goals simp

lemma setup_no_create (k : keychain) (env : Env) :
    (((k.setupBiometrics env).2.2).all fun ev => !ev.isCreateCall) = true := by
  unfold keychain.setupBiometrics
  repeat' split
  all_goals simp [Event.isCreateCall]

lemma gate_skip (k : keychain) (env : Env) (h : k.authenticated = true) :
    k.openWithBiometrics env = (k, Except.ok (GKeychain.newWithPath k.path), []) := by
  simp [keychain.openWithBiometrics, h]

lemma gate_cases (k : keychain) (env : Env) (h : k.authenticated = false)
    (h1 : (env.touchid ("unlock " ++ k.path)).1 = true)
    (h2 : (env.touchid ("unlock " ++ k.path)).2 = none) :
    ((k.openWithBiometrics env).1).authenticated = true ∧
      ((k.openWithBiometrics env).1).path = k.path := by
  unfold keychain.openWithBiometrics
  simp only [h, h1, h2]
  repeat' split
  all_goals simp_all [setup_auth, setup_path]

lemma runGate_authenticated (k : keychain) (h : k.authenticated = true)
    (envs : List Env) :
    runGate k envs =
      (k, List.replicate envs.length
        (Except.ok (GKeychain.newWithPath k.path), ([] : List Event))) := by
  induction envs with
  | nil => simp [runGate]
  | cons env rest ih => simp [runGate, gate_skip k env h, ih, List.replicate_succ]

/-- A concrete backend state used by the witnesses. -/
def kW : keychain :=
  { path := "test.keychain", service := "svc", passphrase := "",
    authenticated := false, passwordFunc := none, isSynchronizable := false,
    isAccessibleWhenUnlocked := false, isTrusted := false }

/-- A benign environment used by the witnesses. -/
def envW : Env :=
  { touchid := fun _ => (true, none),
    queryItem := fun _ => ([], none),
    addItem := fun _ => none,
    updateItem := fun _ _ => none,
    deleteItem := fun _ => none,
    status := fun _ => none,
    newKeychainWithPrompt := fun p => Except.ok (GKeychain.newWithPath p),
    newKeychain := fun p _ => Except.ok (GKeychain.newWithPath p),
    unlockAtPath := fun _ _ => none,
    readPassword := Except.ok "pw" }

/-- An environment whose biometric challenge is declined. -/
def envFail : Env := { envW with touchid := fun _ => (false, none) }

/-- An environment whose stored-passphrase query fails after a successful
biometric challenge. -/
def envQErr : Env := { envW with queryItem := fun _ => ([], some (GoErr.other 7)) }

/-- Claim C1: once the biometric challenge of a gate invocation has
succeeded on an instance, every subsequent gate invocation on that
instance — for any number of further operations and any provider
behaviour — returns a container handle with an empty trace, so the
authenticator is never challenged again. -/
theorem gate_authenticates_at_most_once (k : keychain) (env : Env)
    (envs : List Env) (h : k.authenticated = false)
    (h1 : (env.touchid ("unlock " ++ k.path)).1 = true)
    (h2 : (env.touchid ("unlock " ++ k.path)).2 = none) :
    (runGate ((k.openWithBiometrics env).1) envs).2 =
      List.replicate envs.length
        (Except.ok (GKeychain.newWithPath k.path), ([] : List Event)) := by
  obtain ⟨ha, hp⟩ := gate_cases k env h h1 h2
  simp [runGate_authenticated _ ha, hp]

/-- Witness for claim C1 at a concrete state, environment and two
follow-up operations. -/
theorem gate_authenticates_at_most_once_witness :
    (runGate ((kW.openWithBiometrics envW).1) [envW, envW]).2 =
      List.replicate ([envW, envW] : List Env).length
        (Except.ok (GKeychain.newWithPath kW.path), ([] : List Event)) :=
  gate_authenticates_at_most_once kW envW [envW, envW] rfl rfl rfl

/-- Claim C8: on a first-time gate invocation whose biometric challenge
returns a negative result or an error, the whole call fails with the
authentication-failed error, the state is returned unchanged (so
`authenticated` stays false and no passphrase is cached), and the trace
holds exactly one challenge and nothing else (no retry within the call). -/
theorem gate_challenge_failure (k : keychain) (env : Env)
    (h : k.authenticated = false)
    (hfail : (env.touchid ("unlock " ++ k.path)).1 = false ∨
      (env.touchid ("unlock " ++ k.path)).2 ≠ none) :
    k.openWithBiometrics env =
      (k, Except.error (GoErr.msg "Authentication with biometrics failed"),
        [Event.challenge ("unlock " ++ k.path)]) := by
  unfold keychain.openWithBiometrics
  rcases hfail with hf | hf
  · simp [h, hf]
  · have hs : (env.touchid ("unlock " ++ k.path)).2.isSome = true :=
      Option.isSome_iff_ne_none.mpr hf
    simp [h, hs]

/-- Witness for claim C8 at a concrete state and a declining
authenticator. -/
theorem gate_challenge_failure_witness :
    kW.openWithBiometrics envFail =
      (kW, Except.error (GoErr.msg "Authentication with biometrics failed"),
        [Event.challenge ("unlock " ++ kW.path)]) :=
  gate_challenge_failure kW envFail rfl (Or.inl rfl)

/-- Claim C9: if the biometric challenge of a gate invocation succeeds but
a later step of the same invocation fails, the instance is nevertheless
left marked authenticated, and the next gate invocation on the same
instance returns a container handle immediately with an empty trace —
no new challenge and no unlock attempt. -/
theorem gate_authenticated_despite_late_failure (k : keychain)
    (env env2 : Env) (e : GoErr) (h : k.authenticated = false)
    (h1 : (env.touchid ("unlock " ++ k.path)).1 = true)
    (h2 : (env.touchid ("unlock " ++ k.path)).2 = none)
    (herr : (k.openWithBiometrics env).2.1 = Except.error e) :
    ((k.openWithBiometrics env).1).authenticated = true ∧
      ((k.openWithBiometrics env).1).openWithBiometrics env2 =
        ((k.openWithBiometrics env).1,
          Except.ok (GKeychain.newWithPath ((k.openWithBiometrics env).1).path),
          []) := by
  obtain ⟨ha, _⟩ := gate_cases k env h h1 h2
  exact ⟨ha, gate_skip _ env2 ha⟩

/-- Witness for claim C9: the stored-passphrase query errors after a
successful challenge, and the next invocation still skips the gate. -/
theorem gate_authenticated_despite_late_failure_witness :
    ((kW.openWithBiometrics envQErr).1).authenticated = true ∧
      ((kW.openWithBiometrics envQErr).1).openWithBiometrics envW =
        ((kW.openWithBiometrics envQErr).1,
          Except.ok (GKeychain.newWithPath ((kW.openWithBiometrics envQErr).1).path),
          []) :=
  gate_authenticated_despite_late_failure kW envQErr envW (GoErr.other 7)
    rfl rfl rfl rfl

/-- Claim C3 (constructor defect): the item payload built by `Set` on a
backend constructed by the registered opener never carries the
synchronizable attribute, contradicting the claimed configuration wiring.  The constructor (source lines 35–54) never
assigns `isSynchronizable` from the configuration, so it keeps its zero
value `false` and the condition at source lines 151–153 is never taken —
for every configuration, including one whose synchronizable flag is set
and an item that does not override it. -/
theorem opener_set_never_synchronizable (cfg : Config) (item : Item)
    (kc : GKeychain) :
    ((keychainOpener cfg).setBuildItem item kc).synchronizable = none := by
  unfold keychainOpener keychain.setBuildItem
  repeat' split
  all_goals (try simp_all [KCItem.UseKeychain, KCItem.SetAccessible,
    KCItem.SetAccess, KCItem.SetData, KCItem.SetDescription, KCItem.SetLabel,
    KCItem.SetAccount, KCItem.SetService, KCItem.SetSecClass,
    KCItem.SetSynchronizable, KCItem.new])
  all_goals (repeat' split)
  all_goals simp_all [KCItem.UseKeychain, KCItem.SetAccessible,
    KCItem.SetAccess, KCItem.SetData, KCItem.SetDescription, KCItem.SetLabel,
    KCItem.SetAccount, KCItem.SetService, KCItem.SetSecClass,
    KCItem.SetSynchronizable, KCItem.new]

/-- Claim C4: the access-control record attached by `Set` on an
opener-constructed backend carries the item's label, and its
trusted-application list is absent (platform default trust) exactly when
the configuration trusts the calling application and the item does not
override it, and explicitly empty otherwise. -/
theorem set_access_record_encoding (cfg : Config) (item : Item)
    (kc : GKeychain) :
    ((keychainOpener cfg).setBuildItem item kc).access =
      some { Label := item.Label,
             TrustedApplications :=
               if cfg.KeychainTrustApplication && !item.KeychainNotTrustApplication
               then none else some ([] : List String) } := by
  unfold keychainOpener keychain.setBuildItem
  repeat' split
  all_goals (try simp_all [KCItem.UseKeychain, KCItem.SetAccessible,
    KCItem.SetAccess, KCItem.SetData, KCItem.SetDescription, KCItem.SetLabel,
    KCItem.SetAccount, KCItem.SetService, KCItem.SetSecClass,
    KCItem.SetSynchronizable, KCItem.new])
  all_goals (repeat' split)
  all_goals simp_all [KCItem.UseKeychain, KCItem.SetAccessible,
    KCItem.SetAccess, KCItem.SetData, KCItem.SetDescription, KCItem.SetLabel,
    KCItem.SetAccount, KCItem.SetService, KCItem.SetSecClass,
    KCItem.SetSynchronizable, KCItem.new]

lemma setAfterOpen_eq_spec (k : keychain) (env : Env) (item : Item)
    (kc : GKeychain) :
    k.setAfterOpen env item kc =
      (match env.addItem (k.setBuildItem item kc) with
       | some GoErr.duplicateItem =>
         (match (env.queryItem (k.setDupQuery item kc)).2 with
          | some e =>
            (some (GoErr.wrap "Failed to query keychain" e),
              [Event.add (k.setBuildItem item kc),
                Event.query (k.setDupQuery item kc)])
          | none =>
            if (env.queryItem (k.setDupQuery item kc)).1 = [] then
              (some (GoErr.msg "no results"),
                [Event.add (k.setBuildItem item kc),
                  Event.query (k.setDupQuery item kc)])
            else
              (match env.updateItem (k.setDupQuery item kc)
                  ((k.setBuildItem item kc).SetAccess none) with
               | some e =>
                 (some (GoErr.wrap "Failed to update item in keychain" e),
                   [Event.add (k.setBuildItem item kc),
                     Event.query (k.setDupQuery item kc),
                     Event.update (k.setDupQuery item kc)
                       ((k.setBuildItem item kc).SetAccess none)])
               | none =>
                 (none,
                   [Event.add (k.setBuildItem item kc),
                     Event.query (k.setDupQuery item kc),
                     Event.update (k.setDupQuery item kc)
                       ((k.setBuildItem item kc).SetAccess none)])))
       | _ => (none, [Event.add (k.setBuildItem item kc)])) := by
  unfold keychain.setAfterOpen
  by_cases hd : env.addItem (k.setBuildItem item kc) = some GoErr.duplicateItem
  · simp only [hd, if_pos]
    rcases hq : (env.queryItem (k.setDupQuery item kc)).2 with _ | e <;>
      simp [hq, List.length_eq_zero]
  · rw [if_neg hd]
    split <;> simp_all

lemma setAfterOpen_query_iff (k : keychain) (env : Env) (item : Item)
    (kc : GKeychain) :
    ((k.setAfterOpen env item kc).2.any fun ev =>
        match ev with
        | Event.query _ => true
        | Event.update _ _ => true
        | _ => false) =
      decide (env.addItem (k.setBuildItem item kc) = some GoErr.duplicateItem) := by
  unfold keychain.setAfterOpen
  by_cases hd : env.addItem (k.setBuildItem item kc) = some GoErr.duplicateItem
  · simp only [hd, if_pos]
    rcases hq : (env.queryItem (k.setDupQuery item kc)).2 with _ | e
    · simp only [hq]
      split <;> (try split) <;> simp [hd]
    · simp [hq, hd]
  · simp [hd]

/-- Claim C2: the create-then-update stage of `Set` re-queries and updates
exactly when the provider reports a duplicate-item conflict on create; on
a duplicate, a failed re-query wraps the provider error, a successful
re-query with zero matches fails with the internal-consistency error
"no results", and otherwise the entry is updated with a payload from which
the access-control record has been removed (`SetAccess(nil)`), so the
record attached at creation is never modified by a later `Set`. -/
theorem set_upsert_conflict_resolution (k : keychain) (env : Env)
    (item : Item) (kc : GKeychain) :
    (k.setAfterOpen env item kc =
      (match env.addItem (k.setBuildItem item kc) with
       | some GoErr.duplicateItem =>
         (match (env.queryItem (k.setDupQuery item kc)).2 with
          | some e =>
            (some (GoErr.wrap "Failed to query keychain" e),
              [Event.add (k.setBuildItem item kc),
                Event.query (k.setDupQuery item kc)])
          | none =>
            if (env.queryItem (k.setDupQuery item kc)).1 = [] then
              (some (GoErr.msg "no results"),
                [Event.add (k.setBuildItem item kc),
                  Event.query (k.setDupQuery item kc)])
            else
              (match env.updateItem (k.setDupQuery item kc)
                  ((k.setBuildItem item kc).SetAccess none) with
               | some e =>
                 (some (GoErr.wrap "Failed to update item in keychain" e),
                   [Event.add (k.setBuildItem item kc),
                     Event.query (k.setDupQuery item kc),
                     Event.update (k.setDupQuery item kc)
                       ((k.setBuildItem item kc).SetAccess none)])
               | none =>
                 (none,
                   [Event.add (k.setBuildItem item kc),
                     Event.query (k.setDupQuery item kc),
                     Event.update (k.setDupQuery item kc)
                       ((k.setBuildItem item kc).SetAccess none)])))
       | _ => (none, [Event.add (k.setBuildItem item kc)]))) ∧
    ((k.setBuildItem item kc).SetAccess none).access = none ∧
    ((k.setAfterOpen env item kc).2.any fun ev =>
        match ev with
        | Event.query _ => true
        | Event.update _ _ => true
        | _ => false) =
      decide (env.addItem (k.setBuildItem item kc) = some GoErr.duplicateItem) :=
  ⟨setAfterOpen_eq_spec k env item kc, rfl,
    setAfterOpen_query_iff k env item kc⟩

lemma setup_no_create_mem (k : keychain) (env : Env) (ev : Event)
    (hm : ev ∈ (k.setupBiometrics env).2.2) : ev.isCreateCall = false := by
  have h := setup_no_create k env
  rw [List.all_eq_true] at h
  simpa using h ev hm

lemma gate_no_create_events (k : keychain) (env : Env) :
    ((k.openWithBiometrics env).2.2.all fun ev => !ev.isCreateCall) = true := by
  unfold keychain.openWithBiometrics
  dsimp only
  repeat' split
  all_goals (try simp_all [Event.isCreateCall, List.all_append, setup_no_create])
  all_goals (intro x hx; exact setup_no_create_mem _ env x hx)

lemma createOrOpen_eq_spec (k : keychain) (env : Env) :
    k.createOrOpen env =
      (match env.status (GKeychain.newWithPath k.path) with
       | none =>
         ((k.openWithBiometrics env).1, (k.openWithBiometrics env).2.1,
           Event.statusCheck (GKeychain.newWithPath k.path) ::
             (k.openWithBiometrics env).2.2)
       | some e =>
         if e = GoErr.noSuchKeychain then
           match k.passwordFunc with
           | none =>
             (k, env.newKeychainWithPrompt k.path,
               [Event.statusCheck (GKeychain.newWithPath k.path),
                 Event.createPrompt k.path])
           | some f =>
             match f "Enter passphrase for keychain" with
             | Except.error e2 =>
               (k, Except.error e2,
                 [Event.statusCheck (GKeychain.newWithPath k.path)])
             | Except.ok pass =>
               (k, env.newKeychain k.path pass,
                 [Event.statusCheck (GKeychain.newWithPath k.path),
                   Event.create k.path pass])
         else
           (k, Except.error e,
             [Event.statusCheck (GKeychain.newWithPath k.path)])) := by
  rcases hs : env.status (GKeychain.newWithPath k.path) with _ | e
  · rcases hg : k.openWithBiometrics env with ⟨k1, r, evs⟩
    simp [keychain.createOrOpen, hs, hg]
  · by_cases he : e = GoErr.noSuchKeychain
    · subst he
      simp only [keychain.createOrOpen, hs]
      rcases hf : k.passwordFunc with _ | f
      · simp [hf]
      · rcases hr : f "Enter passphrase for keychain" with e2 | pass <;>
          simp [hf, hr]
    · simp [keychain.createOrOpen, hs, he]

lemma createOrOpen_no_create_and_unlock (k : keychain) (env : Env) :
    (((k.createOrOpen env).2.2.all fun ev => !ev.isCreateCall) ||
      ((k.createOrOpen env).2.2.all fun ev => !ev.isUnlockCall)) = true := by
  rcases hs : env.status (GKeychain.newWithPath k.path) with _ | e
  · rcases hg : k.openWithBiometrics env with ⟨k1, r, evs⟩
    have hgc : (evs.all fun ev => !ev.isCreateCall) = true := by
      have h0 := gate_no_create_events k env
      rw [hg] at h0
      exact h0
    simp only [keychain.createOrOpen, hs, hg]
    rw [Bool.or_eq_true]
    left
    rw [List.all_cons, hgc]
    simp [Event.isCreateCall]
  · simp only [keychain.createOrOpen, hs]
    split <;> (try split) <;> (try split) <;>
      simp [Event.isUnlockCall, Event.isCreateCall]

/-- Claim C5: with a configured container name, the store opener branches
on the provider status exactly as specified — container exists: delegate
to the biometric gate (whose trace holds no create call); status reports
no-such-container: create, interactively when no password supplier is
configured and programmatically with the supplied passphrase otherwise,
with a trace holding no unlock; any other status error: propagated
unchanged.  Moreover no single call's trace holds both a create call and
an unlock call. -/
theorem createOrOpen_branches (k : keychain) (env : Env) :
    (k.createOrOpen env =
      (match env.status (GKeychain.newWithPath k.path) with
       | none =>
         ((k.openWithBiometrics env).1, (k.openWithBiometrics env).2.1,
           Event.statusCheck (GKeychain.newWithPath k.path) ::
             (k.openWithBiometrics env).2.2)
       | some e =>
         if e = GoErr.noSuchKeychain then
           match k.passwordFunc with
           | none =>
             (k, env.newKeychainWithPrompt k.path,
               [Event.statusCheck (GKeychain.newWithPath k.path),
                 Event.createPrompt k.path])
           | some f =>
             match f "Enter passphrase for keychain" with
             | Except.error e2 =>
               (k, Except.error e2,
                 [Event.statusCheck (GKeychain.newWithPath k.path)])
             | Except.ok pass =>
               (k, env.newKeychain k.path pass,
                 [Event.statusCheck (GKeychain.newWithPath k.path),
                   Event.create k.path pass])
         else
           (k, Except.error e,
             [Event.statusCheck (GKeychain.newWithPath k.path)]))) ∧
    ((k.openWithBiometrics env).2.2.all fun ev => !ev.isCreateCall) = true ∧
    (((k.createOrOpen env).2.2.all fun ev => !ev.isCreateCall) ||
      ((k.createOrOpen env).2.2.all fun ev => !ev.isUnlockCall)) = true :=
  ⟨createOrOpen_eq_spec k env, gate_no_create_events k env,
    createOrOpen_no_create_and_unlock k env⟩

lemma get_eq_spec (k : keychain) (env : Env) (key : String) :
    k.Get env key =
      (if (env.queryItem (k.getQuery key)).2 = some GoErr.itemNotFound ∨
          (env.queryItem (k.getQuery key)).1 = [] then
        Except.error GoErr.keyNotFound
      else
        match (env.queryItem (k.getQuery key)).2 with
        | some e => Except.error e
        | none =>
          Except.ok
            { Key := key,
              Data := ((env.queryItem (k.getQuery key)).1.headD default).Data,
              Label := ((env.queryItem (k.getQuery key)).1.headD default).Label,
              Description :=
                ((env.queryItem (k.getQuery key)).1.headD default).Description,
              KeychainNotSynchronizable := false,
              KeychainNotTrustApplication := false }) := by
  unfold keychain.Get
  dsimp only
  simp only [List.length_eq_zero]

lemma get_notFound_iff (k : keychain) (env : Env) (key : String)
    (hp : (env.queryItem (k.getQuery key)).2 ≠ some GoErr.keyNotFound) :
    k.Get env key = Except.error GoErr.keyNotFound ↔
      ((env.queryItem (k.getQuery key)).2 = some GoErr.itemNotFound ∨
        (env.queryItem (k.getQuery key)).1 = []) := by
  rw [get_eq_spec]
  by_cases hc : ((env.queryItem (k.getQuery key)).2 = some GoErr.itemNotFound ∨
      (env.queryItem (k.getQuery key)).1 = [])
  · simp [hc]
  · rw [if_neg hc]
    simp only [hc, iff_false]
    rcases hr : (env.queryItem (k.getQuery key)).2 with _ | e
    · simp
    · simp only []
      intro hcon
      rw [hr] at hp
      exact hp (by simpa using hcon)

/-- Claim C6: `Get` fails with the keyring NotFound sentinel exactly when
the provider reports item-not-found or returns zero matching entries for
the (service, key) query; any other provider failure is returned
unchanged, and on success the returned item carries the queried entry's
data, label and description.  The hypothesis only rules out the provider
returning the keyring package's own sentinel, which — being a distinct Go
error value of another package — it cannot produce. -/
theorem get_error_taxonomy (k : keychain) (env : Env) (key : String)
    (hp : (env.queryItem (k.getQuery key)).2 ≠ some GoErr.keyNotFound) :
    (k.Get env key = Except.error GoErr.keyNotFound ↔
      ((env.queryItem (k.getQuery key)).2 = some GoErr.itemNotFound ∨
        (env.queryItem (k.getQuery key)).1 = [])) ∧
    k.Get env key =
      (if (env.queryItem (k.getQuery key)).2 = some GoErr.itemNotFound ∨
          (env.queryItem (k.getQuery key)).1 = [] then
        Except.error GoErr.keyNotFound
      else
        match (env.queryItem (k.getQuery key)).2 with
        | some e => Except.error e
        | none =>
          Except.ok
            { Key := key,
              Data := ((env.queryItem (k.getQuery key)).1.headD default).Data,
              Label := ((env.queryItem (k.getQuery key)).1.headD default).Label,
              Description :=
                ((env.queryItem (k.getQuery key)).1.headD default).Description,
              KeychainNotSynchronizable := false,
              KeychainNotTrustApplication := false }) :=
  ⟨get_notFound_iff k env key hp, get_eq_spec k env key⟩

/-- Witness for claim C6: an empty query result yields the NotFound
sentinel. -/
theorem get_error_taxonomy_witness :
    (kW.Get envW "db" = Except.error GoErr.keyNotFound ↔
      ((envW.queryItem (kW.getQuery "db")).2 = some GoErr.itemNotFound ∨
        (envW.queryItem (kW.getQuery "db")).1 = [])) ∧
    kW.Get envW "db" =
      (if (envW.queryItem (kW.getQuery "db")).2 = some GoErr.itemNotFound ∨
          (envW.queryItem (kW.getQuery "db")).1 = [] then
        Except.error GoErr.keyNotFound
      else
        match (envW.queryItem (kW.getQuery "db")).2 with
        | some e => Except.error e
        | none =>
          Except.ok
            { Key := "db",
              Data := ((envW.queryItem (kW.getQuery "db")).1.headD default).Data,
              Label := ((envW.queryItem (kW.getQuery "db")).1.headD default).Label,
              Description :=
                ((envW.queryItem (kW.getQuery "db")).1.headD default).Description,
              KeychainNotSynchronizable := false,
              KeychainNotTrustApplication := false }) :=
  get_error_taxonomy kW envW "db" (by decide)

/-- Claim C7: with a configured container name, a failing provider status
makes `Keys` return the empty sequence without error exactly on
no-such-container, and the status error itself otherwise; either way the
only external call is the status check. -/
theorem keys_missing_container (k : keychain) (env : Env) (e : GoErr)
    (hp : k.path ≠ "")
    (hs : env.status (GKeychain.newWithPath k.path) = some e) :
    k.Keys env =
      (if e = GoErr.noSuchKeychain then Except.ok [] else Except.error e,
        [Event.statusCheck (GKeychain.newWithPath k.path)]) := by
  unfold keychain.Keys
  dsimp only
  rw [if_pos hp, hs]
  by_cases he : e = GoErr.noSuchKeychain <;> simp [he]

/-- An environment reporting that the container does not exist. -/
def envNS : Env := { envW with status := fun _ => some GoErr.noSuchKeychain }

/-- Witness for claim C7 on a missing container. -/
theorem keys_missing_container_witness :
    kW.Keys envNS =
      (if GoErr.noSuchKeychain = GoErr.noSuchKeychain then Except.ok []
        else Except.error GoErr.noSuchKeychain,
        [Event.statusCheck (GKeychain.newWithPath kW.path)]) :=
  keys_missing_container kW envNS GoErr.noSuchKeychain (by decide) rfl

lemma setAfterOpen_write_events (k : keychain) (env : Env) (item : Item)
    (kc : GKeychain) :
    ((k.setAfterOpen env item kc).2.all fun ev =>
      match ev with
      | Event.add _ => true
      | Event.query _ => true
      | Event.update _ _ => true
      | _ => false) = true := by
  unfold keychain.setAfterOpen
  dsimp only
  repeat' split
  all_goals simp

lemma opener_service (cfg : Config) :
    (keychainOpener cfg).service = cfg.ServiceName := by
  unfold keychainOpener
  dsimp only
  repeat' split
  all_goals simp

lemma opener_pathless (cfg : Config) (hn : cfg.KeychainName = "") :
    (keychainOpener cfg).path = "" := by
  unfold keychainOpener
  dsimp only
  simp only [hn]
  repeat' split
  all_goals simp_all

/-- Claim C10: on a backend constructed with no container name, `Set`
runs the create-then-update stage directly — no store opener, no
biometric gate, its payloads carry no keychain reference and no search
list, and its trace holds only add/query/update provider calls — while
`Remove` and `Keys` go straight to the provider without the
container-existence status check whose special cases (NotFound, empty
key sequence) therefore only apply when a container name is
configured. -/
theorem pathless_backend_direct (cfg : Config) (env : Env) (item : Item)
    (key : String) (hn : cfg.KeychainName = "") :
    (keychainOpener cfg).path = "" ∧
    (keychainOpener cfg).Set env item =
      (keychainOpener cfg,
        (keychainOpener cfg).setAfterOpen env item GKeychain.zero) ∧
    ((keychainOpener cfg).setBuildItem item GKeychain.zero).useKeychain = none ∧
    ((keychainOpener cfg).setDupQuery item GKeychain.zero).matchSearchList = none ∧
    (((keychainOpener cfg).Set env item).2.2.all fun ev =>
      match ev with
      | Event.add _ => true
      | Event.query _ => true
      | Event.update _ _ => true
      | _ => false) = true ∧
    (keychainOpener cfg).Remove env key =
      (env.deleteItem (((KCItem.new.SetSecClass
          SecClass.genericPassword).SetService cfg.ServiceName).SetAccount key),
        [Event.delete (((KCItem.new.SetSecClass
          SecClass.genericPassword).SetService cfg.ServiceName).SetAccount key)]) ∧
    (keychainOpener cfg).Keys env =
      (match (env.queryItem ((keychainOpener cfg).keysQuery)).2 with
       | some e => Except.error e
       | none =>
         Except.ok ((env.queryItem
           ((keychainOpener cfg).keysQuery)).1.map QueryResult.Account),
        [Event.query ((keychainOpener cfg).keysQuery)]) := by
  have hpath : (keychainOpener cfg).path = "" := opener_pathless cfg hn
  have hserv : (keychainOpener cfg).service = cfg.ServiceName :=
    opener_service cfg
  have hset : (keychainOpener cfg).Set env item =
      (keychainOpener cfg,
        (keychainOpener cfg).setAfterOpen env item GKeychain.zero) := by
    unfold keychain.Set
    simp [hpath]
  refine ⟨hpath, hset, ?_, ?_, ?_, ?_, ?_⟩
  · unfold keychain.setBuildItem
    dsimp only
    simp only [hpath]
    repeat' split
    all_goals simp_all [KCItem.UseKeychain, KCItem.SetAccessible, KCItem.SetAccess,
      KCItem.SetData, KCItem.SetDescription, KCItem.SetLabel, KCItem.SetAccount,
      KCItem.SetService, KCItem.SetSecClass, KCItem.SetSynchronizable, KCItem.new]
  · unfold keychain.setDupQuery
    dsimp only
    simp [hpath, KCItem.SetMatchLimit, KCItem.SetReturnAttributes,
      KCItem.SetAccount, KCItem.SetService, KCItem.SetSecClass, KCItem.new]
  · rw [hset]
    exact setAfterOpen_write_events (keychainOpener cfg) env item GKeychain.zero
  · unfold keychain.Remove
    dsimp only
    simp [hpath, hserv]
  · unfold keychain.Keys
    dsimp only
    rw [if_neg (by simp [hpath])]
    rcases hq : (env.queryItem ((keychainOpener cfg).keysQuery)).2 with _ | e <;>
      simp [hq]

/-- A concrete configuration with no container name used by the C10
witness; its synchronizable flag is deliberately set. -/
def cfgW : Config :=
  { ServiceName := "svc", KeychainName := "",
    KeychainPasswordFunc := none, KeychainAccessibleWhenUnlocked := false,
    KeychainTrustApplication := false, KeychainSynchronizable := true }

/-- A concrete item used by the witnesses. -/
def itemW : Item :=
  { Key := "db", Data := "pw", Label := "lbl", Description := "desc",
    KeychainNotSynchronizable := false, KeychainNotTrustApplication := false }

/-- Witness for claim C10 at a concrete pathless configuration. -/
theorem pathless_backend_direct_witness :
    (keychainOpener cfgW).path = "" ∧
    (keychainOpener cfgW).Set envW itemW =
      (keychainOpener cfgW,
        (keychainOpener cfgW).setAfterOpen envW itemW GKeychain.zero) ∧
    ((keychainOpener cfgW).setBuildItem itemW GKeychain.zero).useKeychain = none ∧
    ((keychainOpener cfgW).setDupQuery itemW GKeychain.zero).matchSearchList = none ∧
    (((keychainOpener cfgW).Set envW itemW).2.2.all fun ev =>
      match ev with
      | Event.add _ => true
      | Event.query _ => true
      | Event.update _ _ => true
      | _ => false) = true ∧
    (keychainOpener cfgW).Remove envW "db" =
      (envW.deleteItem (((KCItem.new.SetSecClass
          SecClass.genericPassword).SetService cfgW.ServiceName).SetAccount "db"),
        [Event.delete (((KCItem.new.SetSecClass
          SecClass.genericPassword).SetService cfgW.ServiceName).SetAccount "db")]) ∧
    (keychainOpener cfgW).Keys envW =
      (match (envW.queryItem ((keychainOpener cfgW).keysQuery)).2 with
       | some e => Except.error e
       | none =>
         Except.ok ((envW.queryItem
           ((keychainOpener cfgW).keysQuery)).1.map QueryResult.Account),
        [Event.query ((keychainOpener cfgW).keysQuery)]) :=
  pathless_backend_direct cfgW envW itemW "db" rfl
